import Mathlib

/-!
# Verification of the Vaani backend gateway (src/main.py)

A shallow embedding of the streaming-relay layer of the FastAPI backend in
src/main.py, together with proofs about the behaviour its specification
describes.  Python strings are modelled by Lean `String` (a list of
characters, matching Python's code-point view); Python dict/JSON values
emitted on the wire are modelled by the inductive `J`; the external model
providers and agent graphs are opaque collaborators, so their outcomes are
parameters of the embedded request handlers.
-/

namespace Vaani

/- ## Python string primitives -/

/-- Python whitespace characters recognised by str.strip (ASCII subset). -/
def pyIsSpace (c : Char) : Bool :=
  c == ' ' || c == '\t' || c == '\n' || c == '\r' || c == '\x0b' || c == '\x0c'

/-- Python str.strip(): drop whitespace from both ends. -/
def pyStrip (s : String) : String :=
  String.mk (((s.data.dropWhile pyIsSpace).reverse.dropWhile pyIsSpace).reverse)

/-- Python s[:n]: the first n code points. -/
def pyTake (n : Nat) (s : String) : String :=
  String.mk (s.data.take n)

/-- Python s.split(' '): split on every single space character, keeping
empty fragments; the empty string yields [""]. -/
def pySplitSpace (s : String) : List String :=
  (s.data.splitOn ' ').map String.mk

/- ## Chunk emitter (the synthetic word-buffer loop)

src/main.py lines 428-446 (stream_chat_response, agent branch) and lines
757-785 (react_agent_search_streaming.event_generator) contain the same
loop: words = text.split(' '); for each word, buffer += word + " ";
word_count += 1; flush when word_count >= 3 or the word contains one of
'.', '!', '?', '\n'.  The react variant additionally flushes a non-empty
remaining buffer after the loop; the stream_chat_response variant does not.
-/

/-- any(char in word for char in ['.', '!', '?', '\n']) from the flush test. -/
def hasTerminalChar (w : String) : Bool :=
  w.data.any (fun c => c == '.' || c == '!' || c == '?' || c == '\n')

/-- The word-buffer loop shared by both emitters: returns the flushed
chunks in order, and the buffer left over when the loop ends. -/
def emitAux : List String → String → Nat → List String × String
  | [], buf, _ => ([], buf)
  | w :: ws, buf, wc =>
    let buf' := buf ++ w ++ " "
    let wc' := wc + 1
    if 3 ≤ wc' ∨ hasTerminalChar w then
      let r := emitAux ws "" 0
      (buf' :: r.1, r.2)
    else
      emitAux ws buf' wc'

/-- Chunk payloads produced by the agent branch of stream_chat_response
(lines 428-446): the loop's flushes only; the final buffer is not flushed. -/
def streamAgentChunks (t : String) : List String :=
  (emitAux (pySplitSpace t) "" 0).1

/-- The buffer remaining after the loop of the stream_chat_response
emitter; the code never emits it. -/
def emitLeftover (t : String) : String :=
  (emitAux (pySplitSpace t) "" 0).2

/-- Chunk payloads produced by react_agent_search_streaming (lines
757-785): the loop's flushes, then the remaining buffer if non-empty. -/
def reactChunkList (t : String) : List String :=
  let r := emitAux (pySplitSpace t) "" 0
  r.1 ++ (if r.2 ≠ "" then [r.2] else [])

/- ## JSON wire events

Each yield in the streaming generators is json.dumps(obj) + "\n": one JSON
object per line.  `J` models the JSON value; the field list mirrors the
Python dict literal of each yield. -/

inductive J where
  | s (v : String)
  | o (fields : List (String × J))

/-- Whether the serialized object carries a field named k. -/
def J.hasField (e : J) (k : String) : Bool :=
  match e with
  | .o fs => fs.any (fun p => p.1 == k)
  | .s _ => false

/-- The value of the "type" field, when it is a string. -/
def J.typeName : J → Option String
  | .o fs => fs.findSome? (fun p =>
      if p.1 = "type" then
        match p.2 with
        | .s v => some v
        | _ => none
      else none)
  | .s _ => none

/-- json.dumps({"type": "status", "status": s}): no thread_id field. -/
def statusEv (s : String) : J :=
  .o [("type", .s "status"), ("status", .s s)]

/-- json.dumps({"type": "chunk", "chunk": c, "thread_id": tid}). -/
def chunkEv (c tid : String) : J :=
  .o [("type", .s "chunk"), ("chunk", .s c), ("thread_id", .s tid)]

/-- json.dumps({"type": "result", "message": {...}, "thread_id": tid}). -/
def resultEv (content tid : String) : J :=
  .o [("type", .s "result"),
      ("message", .o [("role", .s "assistant"), ("content", .s content)]),
      ("thread_id", .s tid)]

/-- json.dumps({"type": "done", "thread_id": tid}). -/
def doneEv (tid : String) : J :=
  .o [("type", .s "done"), ("thread_id", .s tid)]

/-- A terminal event: type "result" or "done". -/
def isTerminal (e : J) : Prop :=
  e.typeName = some "result" ∨ e.typeName = some "done"

instance (e : J) : Decidable (isTerminal e) := by
  unfold isTerminal; infer_instance

/- ## Conversation normalizer (chat endpoint, lines 212-225) -/

/-- A client message {role, content}. -/
structure Msg where
  role : String
  content : String
deriving DecidableEq

/-- LangChain message constructed by the normalizer. -/
inductive LCMessage where
  | human (content : String)
  | ai (content : String)
deriving DecidableEq

def LCMessage.content : LCMessage → String
  | .human c => c
  | .ai c => c

/-- One loop iteration of lines 213-221: a user message maps to
HumanMessage, an assistant message to AIMessage, anything else is dropped.
Python's truthiness test "if msg.content" is false exactly for the empty
string, so only a literally empty content gets the default; otherwise the
content is stripped. -/
def normalizeMsg (m : Msg) : Option LCMessage :=
  if m.role = "user" then
    some (.human (if m.content = "" then "Hello" else pyStrip m.content))
  else if m.role = "assistant" then
    some (.ai (if m.content = "" then "I'm an AI assistant." else pyStrip m.content))
  else
    none

/-- Lines 212-225: convert all messages, then substitute a default user
message when the result is empty. -/
def normalizeMessages (ms : List Msg) : List LCMessage :=
  let l := ms.filterMap normalizeMsg
  if l = [] then [.human "Hello"] else l

/- ## Model registry resolution

MODEL_CLIENTS is a Python dict built at startup; its keys in insertion
order are modelled as a list of names.  next(iter(keys)) is the head. -/

/-- Outcome of the registry check at the top of a direct-model path. -/
inductive Resolution where
  | noKeys
  | use (model : String)
deriving DecidableEq

/-- Lines 300-312 of chat: if the model is registered use it; otherwise,
with an empty registry, answer the advisory reply; otherwise fall back to
the first registered model. -/
def resolveChatModel (reg : List String) (m : String) : Resolution :=
  if m ∈ reg then .use m
  else
    match reg with
    | [] => .noKeys
    | first :: _ => .use first

/-- Lines 354-368 of stream_chat_response: the same check, performed
before the agent/direct branch. -/
def resolveStreamModel (reg : List String) (m : String) : Resolution :=
  if m ∈ reg then .use m
  else
    match reg with
    | [] => .noKeys
    | first :: _ => .use first

/-- The advisory reply used when no API keys are configured. -/
def noKeysMsg : String :=
  "No API keys are configured. Please add API keys to your .env file."

/-- The distinguished busy message of react_agent_search (line 624). -/
def busyMsg : String :=
  "Sorry, the AI service is currently experiencing high load. Please try again in a few moments or switch to a different model."

/- ## Opaque collaborator outcomes

The agent graphs and provider clients are external; a request handler
observes one of these outcomes of an invocation. -/

/-- Outcome of agt_graph.invoke in the chat endpoint.  ok carries the
reply text extracted from the result (lines 276-287); overload is
anthropic.InternalServerError; failure is any other exception, carrying
str(exception). -/
inductive AgentOutcome where
  | ok (content : String)
  | overload (err : String)
  | failure (err : String)
deriving DecidableEq

/-- Outcome of model.invoke in the direct non-streaming path. -/
inductive DirectOutcome where
  | ok (content : String)
  | failure (err : String)
deriving DecidableEq

/-- Behaviour of the resolved model client in the direct streaming path
(lines 465-505).  noAstream: the client has no astream attribute, so the
body of the hasattr guard is skipped entirely.  ok: astream yielded the
given extracted chunk contents and completed.  err: the given chunk
contents were yielded, then an exception with the given text was raised. -/
inductive DirectStream where
  | noAstream
  | ok (chunks : List String)
  | err (emitted : List String) (msg : String)
deriving DecidableEq

/- ## Chat endpoint, non-streaming reply (lines 249-344) -/

/-- The assistant reply content computed by the chat endpoint when
stream=false.  With use_agent=true the registry is never consulted and
the only exception handler is the generic except Exception (lines
289-294); anthropic.InternalServerError is a subclass of Exception, so an
overload is converted to the same generic message.  With use_agent=false
the registry check of lines 300-312 runs first. -/
def chatReplyContent (reg : List String) (model : String) (useAgent : Bool)
    (agentOut : AgentOutcome) (directOut : DirectOutcome) : String :=
  if useAgent then
    match agentOut with
    | .ok c => c
    | .overload e => "I encountered an error with the AI agent: " ++ e
    | .failure e => "I encountered an error with the AI agent: " ++ e
  else
    match resolveChatModel reg model with
    | .noKeys => noKeysMsg
    | .use m =>
      match directOut with
      | .ok c => c
      | .failure e => "I encountered an error with the " ++ m ++ " model: " ++ e

/- ## React agent result extraction and source citations -/

/-- An entry of a list-shaped search tool output.  item.get returns None
for a missing key and Python treats None and "" alike as falsy here, so a
missing url/title is modelled as "". -/
structure SearchItem where
  url : String
  title : String
deriving DecidableEq

/-- The output attached to a tool call record.  absent models a missing
or falsy output (None, "", or the empty list, which Python also treats as
falsy and which would contribute no sources anyway); nonList models a
truthy value that fails the isinstance(tool_output, list) test. -/
inductive ToolOutput where
  | absent
  | nonList
  | items (l : List SearchItem)
deriving DecidableEq

/-- A tool invocation record from msg.tool_calls. -/
structure ToolCall where
  name : String
  output : ToolOutput
deriving DecidableEq

/-- A message of the react agent's result. -/
structure AgentMsg where
  content : String
  tool_calls : List ToolCall
deriving DecidableEq

/-- Sources contributed by one tool call (lines 603-612): the name must
be "search", the output must be a list, and each entry needs a truthy url
and title. -/
def toolCallSources (tc : ToolCall) : List SearchItem :=
  if tc.name = "search" then
    match tc.output with
    | .items l =>
        l.filterMap (fun it =>
          if it.url ≠ "" ∧ it.title ≠ "" then some ⟨it.url, it.title⟩ else none)
    | _ => []
  else []

/-- Sources contributed by one result message. -/
def msgSources (m : AgentMsg) : List SearchItem :=
  (m.tool_calls.map toolCallSources).flatten

/-- Lines 598-613: messages with a truthy tool_calls attribute are
scanned in order and their sources concatenated, without deduplication. -/
def collectSources (msgs : List AgentMsg) : List SearchItem :=
  ((msgs.filter (fun m => !m.tool_calls.isEmpty)).map msgSources).flatten

/-- Title preparation of format_source_urls (lines 829-831): strip, then
truncate to 57 code points plus "..." when longer than 60. -/
def truncTitle (t : String) : String :=
  let t' := pyStrip t
  if 60 < t'.length then pyTake 57 t' ++ "..." else t'

/-- One formatted source line (line 832); a source with a falsy url is
skipped. -/
def renderSource (s : SearchItem) : Option String :=
  if s.url ≠ "" then
    some ("[" ++ truncTitle s.title ++ "](" ++ s.url ++ ")")
  else none

/-- format_source_urls (lines 819-836). -/
def format_source_urls (sources : List SearchItem) : String :=
  if sources.isEmpty then ""
  else
    let formatted := sources.filterMap renderSource
    if formatted.isEmpty then ""
    else "\n\n**Sources:**\n" ++ String.intercalate "\n" formatted

/-- Lines 593-618 (duplicated at lines 730-755): extract the last result
message's content and append the formatted sources section when any
sources were collected. -/
def reactReply (msgs : List AgentMsg) : String :=
  match msgs.getLast? with
  | none => "I couldn't find any useful information. Please try a different query."
  | some last =>
    let sto := msgs.filter (fun m => !m.tool_calls.isEmpty)
    if sto.isEmpty then last.content
    else
      let sources := (sto.map msgSources).flatten
      if sources.isEmpty then last.content
      else last.content ++ format_source_urls sources

/-- A concrete agent result used as a witness input: a question, an AI
message carrying one "search" tool invocation with two {url, title}
entries, and a final answer. -/
def sampleSearchMsgs : List AgentMsg :=
  [⟨"q", []⟩,
   ⟨"calling search",
     [⟨"search", .items [⟨"http://a", "Alpha"⟩, ⟨"http://b", "Beta"⟩]⟩]⟩,
   ⟨"Answer", []⟩]

/-- Outcome of react_graph.ainvoke. -/
inductive ReactOutcome where
  | ok (msgs : List AgentMsg)
  | overload (err : String)
  | failure (err : String)
deriving DecidableEq

/-- The reply content of the react_agent_search endpoint (lines 581-640):
ok yields the extracted and source-augmented reply;
anthropic.InternalServerError yields the distinguished busy message; any
other exception yields the generic research-agent error message. -/
def reactSearchReply (out : ReactOutcome) : String :=
  match out with
  | .ok msgs => reactReply msgs
  | .overload _ => busyMsg
  | .failure e => "I encountered an error with the research agent: " ++ e

/- ## Streaming chat generator (stream_chat_response, lines 347-513) -/

/-- The inputs and observed collaborator behaviour of one
stream_chat_response invocation.  progressTicks is the number of
iterations of the status-polling loop at lines 405-411, which depends on
the agent task's running time. -/
structure StreamReq where
  registry : List String
  model : String
  threadId : String
  useAgent : Bool
  agentOut : AgentOutcome
  progressTicks : Nat
  directStream : DirectStream

/-- progress_steps of line 402. -/
def progressSteps : List String :=
  ["Thinking", "Processing", "Analyzing", "Formulating response"]

/-- The status events yielded by the polling loop: iteration i yields
progress_steps[i % 4] followed by "...". -/
def agentProgress (k : Nat) : List J :=
  (List.range k).map (fun i => statusEv (progressSteps.getD (i % 4) "" ++ "..."))

/-- The event sequence of one stream_chat_response invocation, paired
with the model name the agent task was started with (none when no agent
task was created).  Mirrors lines 347-513: initial status; registry check
with advisory result on an empty registry; then either the agent branch
(running-agent status, polling statuses, synthetic chunks and a result)
or the direct branch (per-token chunks and done when astream exists and
completes, an error result if it raises, and nothing further when the
client has no astream attribute). -/
def streamChatRun (r : StreamReq) : List J × Option String :=
  let ev0 := statusEv "Processing..."
  match resolveStreamModel r.registry r.model with
  | .noKeys => ([ev0, resultEv noKeysMsg r.threadId], none)
  | .use model =>
    if r.useAgent then
      let pre := ev0 :: statusEv "Running agent..." :: agentProgress r.progressTicks
      match r.agentOut with
      | .ok content =>
          (pre ++ (streamAgentChunks content).map (fun c => chunkEv c r.threadId)
               ++ [resultEv content r.threadId], some model)
      | .overload e =>
          (pre ++ [resultEv ("I encountered an error with the AI agent: " ++ e) r.threadId],
           some model)
      | .failure e =>
          (pre ++ [resultEv ("I encountered an error with the AI agent: " ++ e) r.threadId],
           some model)
    else
      match r.directStream with
      | .noAstream => ([ev0], none)
      | .ok cs =>
          (ev0 :: (cs.filter (fun c => c ≠ "")).map (fun c => chunkEv c r.threadId)
               ++ [doneEv r.threadId], none)
      | .err emitted msg =>
          (ev0 :: (emitted.filter (fun c => c ≠ "")).map (fun c => chunkEv c r.threadId)
               ++ [resultEv ("I encountered an error with the " ++ model ++ " model: " ++ msg)
                     r.threadId], none)

/-- The events alone. -/
def streamChatEvents (r : StreamReq) : List J :=
  (streamChatRun r).1

/- ## React streaming generator (lines 649-807) -/

/-- Events of one react_agent_search_streaming invocation.  ok: both
leading statuses, then the word-buffer chunks of the extracted reply
(remainder included, lines 777-785), then the result event.  failure: the
exception from react_graph.ainvoke reaches the outer handler after both
statuses were already yielded, producing the error result of line 796. -/
def reactStreamEvents (tid : String) (out : ReactOutcome) : List J :=
  match out with
  | .ok msgs =>
      let content := reactReply msgs
      statusEv "Starting research..." :: statusEv "Researching..."
        :: (reactChunkList content).map (fun c => chunkEv c tid)
        ++ [resultEv content tid]
  | .overload e =>
      [statusEv "Starting research...", statusEv "Researching...",
       resultEv ("I encountered an error: " ++ e) tid]
  | .failure e =>
      [statusEv "Starting research...", statusEv "Researching...",
       resultEv ("I encountered an error: " ++ e) tid]

/-- The field discipline every wire event actually follows: a type field
is always present; chunk, result and done events carry a thread_id field;
status events do not. -/
def eventWellFormed (e : J) : Prop :=
  e.hasField "type" = true ∧
  (e.typeName = some "status" → e.hasField "thread_id" = false) ∧
  (e.typeName ≠ some "status" → e.hasField "thread_id" = true)

/- ## Helper lemmas about String concatenation -/

theorem data_empty : ("" : String).data = [] := rfl

theorem append_empty_str (s : String) : s ++ "" = s := by
  apply String.ext; simp [String.data_append, data_empty]

theorem empty_append_str (s : String) : "" ++ s = s := by
  apply String.ext; simp [String.data_append, data_empty]

theorem join_append_str (a b : List String) :
    String.join (a ++ b) = String.join a ++ String.join b := by
  apply String.ext
  simp [String.data_join, String.data_append]

/- ## The chunk emitter round-trip -/

/-- Everything that enters the buffer either comes out as a chunk or is
left in the final buffer: chunks plus leftover reproduce the initial
buffer followed by every word with a space appended. -/
theorem emitAux_join (ws : List String) : ∀ buf wc,
    String.join (emitAux ws buf wc).1 ++ (emitAux ws buf wc).2
      = buf ++ String.join (ws.map (fun w => w ++ " ")) := by
  induction ws with
  | nil =>
    intro buf wc
    apply String.ext
    simp [emitAux, String.data_join, String.data_append, data_empty]
  | cons w ws ih =>
    intro buf wc
    apply String.ext
    simp only [emitAux]
    split
    · have h1 := congrArg String.data (ih "" 0)
      simp only [String.data_append, String.data_join, data_empty, List.nil_append] at h1
      simp [String.data_append, String.data_join, h1, List.append_assoc]
    · have h1 := congrArg String.data (ih (buf ++ w ++ " ") (wc + 1))
      simp only [String.data_append, String.data_join] at h1
      simp [String.data_append, String.data_join, h1, List.append_assoc]

/-- Appending a space to every fragment of a split and flattening gives
the original list followed by one space. -/
theorem flatten_map_space (pss : List (List Char)) (h : pss ≠ []) :
    (pss.map (fun p => p ++ [' '])).flatten = [' '].intercalate pss ++ [' '] := by
  induction pss with
  | nil => exact absurd rfl h
  | cons p ps ih =>
    cases ps with
    | nil => simp [List.intercalate]
    | cons q qs =>
      have h2 := ih (by simp)
      simp only [List.map_cons, List.flatten_cons] at h2 ⊢
      rw [h2]
      simp only [List.intercalate, List.intersperse_cons₂, List.flatten_cons]
      simp [List.append_assoc]

theorem pySplitSpace_ne_nil (t : String) : t.data.splitOn ' ' ≠ [] := by
  simp only [List.splitOn]
  exact List.splitOnP_ne_nil _ _

/-- Emitting every split word with a trailing space and concatenating
gives the source text plus one trailing space. -/
theorem join_split_words (t : String) :
    String.join ((pySplitSpace t).map (fun w => w ++ " ")) = t ++ " " := by
  apply String.ext
  simp only [String.data_join, String.data_append, pySplitSpace, List.map_map]
  have hc : (String.data ∘ (fun w : String => w ++ " ") ∘ String.mk)
      = fun p : List Char => p ++ [' '] := by
    funext p
    rfl
  rw [hc, flatten_map_space _ (pySplitSpace_ne_nil t), List.intercalate_splitOn]

/-- C1 (amended): concatenating the chunk payloads of the synthetic
word-buffer emitter reproduces the source text followed by exactly one
extra trailing space, not the source text itself.  The
react_agent_search_streaming emitter flushes the final buffer, so its
chunks concatenate to source ++ " "; the stream_chat_response agent
emitter drops the final buffer, so its chunks concatenate to source ++ " "
minus the unflushed leftover. -/
theorem C1_round_trip_trailing_space (t : String) :
    String.join (reactChunkList t) = t ++ " " ∧
    String.join (streamAgentChunks t) ++ emitLeftover t = t ++ " " := by
  have base := emitAux_join (pySplitSpace t) "" 0
  rw [empty_append_str, join_split_words] at base
  have join_single : ∀ x : String, String.join [x] = x := by
    intro x
    show "" ++ x = x
    exact empty_append_str x
  constructor
  · by_cases h : (emitAux (pySplitSpace t) "" 0).2 = ""
    · simp only [reactChunkList, h, ne_eq, not_true_eq_false, if_false, List.append_nil]
      rwa [h, append_empty_str] at base
    · simp only [reactChunkList, h, ne_eq, not_false_eq_true, if_true]
      rw [join_append_str, join_single]
      exact base
  · exact base

/-- C1 counterexample: for the one-word text "hi", both emitters fail the
round-trip law as stated.  The react emitter yields the single chunk
"hi " (an extra space added), and the stream_chat_response agent emitter
yields no chunk at all (the word is dropped with the buffer). -/
theorem C1_counterexample :
    String.join (reactChunkList "hi") ≠ "hi" ∧
    String.join (streamAgentChunks "hi") ≠ "hi" := by
  decide

/- ## Word-group view of the emitter, for the flush policy -/

/-- The buffer contents corresponding to a group of accumulated words. -/
def renderW (g : List String) : String :=
  String.join (g.map (fun w => w ++ " "))

/-- The word-buffer loop tracked at the level of word groups: the buffer
is the list of words accumulated since the last flush. -/
def emitAuxW : List String → List String → List (List String) × List String
  | [], acc => ([], acc)
  | w :: ws, acc =>
    let acc' := acc ++ [w]
    if 3 ≤ acc'.length ∨ hasTerminalChar w then
      let r := emitAuxW ws []
      (acc' :: r.1, r.2)
    else
      emitAuxW ws acc'

theorem renderW_nil : renderW [] = "" := rfl

theorem renderW_snoc (g : List String) (w : String) :
    renderW (g ++ [w]) = renderW g ++ w ++ " " := by
  unfold renderW
  rw [List.map_append, join_append_str, List.map_cons, List.map_nil]
  have : String.join [w ++ " "] = w ++ " " := by
    show "" ++ (w ++ " ") = w ++ " "
    exact empty_append_str (w ++ " ")
  rw [this, ← String.append_assoc]

/-- The string-buffer loop is the rendering of the word-group loop. -/
theorem emitAux_eq_emitAuxW (ws : List String) : ∀ acc : List String,
    emitAux ws (renderW acc) acc.length
      = ((emitAuxW ws acc).1.map renderW, renderW (emitAuxW ws acc).2) := by
  induction ws with
  | nil => intro acc; rfl
  | cons w ws ih =>
    intro acc
    have hlen : (acc ++ [w]).length = acc.length + 1 := by simp
    simp only [emitAux, emitAuxW, ← renderW_snoc, hlen]
    split
    · have ih0 := ih []
      rw [show (renderW [] : String) = "" from rfl,
          show ([] : List String).length = 0 from rfl] at ih0
      rw [ih0]
      simp
    · have ih1 := ih (acc ++ [w])
      rw [hlen] at ih1
      exact ih1

/-- Every chunk flushed by the word-group loop obeys the flush policy:
the group is non-empty and has at most 3 words, and a group of fewer than
3 words was flushed because its last word contains a sentence-terminal
character. -/
theorem emitAuxW_policy (ws : List String) : ∀ acc : List String, acc.length ≤ 2 →
    ∀ g ∈ (emitAuxW ws acc).1,
      g ≠ [] ∧ g.length ≤ 3 ∧
        (g.length < 3 → ∃ w, g.getLast? = some w ∧ hasTerminalChar w = true) := by
  induction ws with
  | nil => intro acc _ g hg; simp [emitAuxW] at hg
  | cons w ws ih =>
    intro acc hacc g hg
    simp only [emitAuxW] at hg
    by_cases hcond : 3 ≤ (acc ++ [w]).length ∨ hasTerminalChar w
    · rw [if_pos hcond] at hg
      rcases List.mem_cons.mp hg with heq | hmem
      · subst heq
        refine ⟨by simp, ?_, ?_⟩
        · simp only [List.length_append, List.length_cons, List.length_nil]
          omega
        · intro hlt
          rcases hcond with hge | hterm
          · omega
          · exact ⟨w, List.getLast?_concat _, hterm⟩
      · exact ih [] (by simp) g hmem
    · rw [if_neg hcond] at hg
      push_neg at hcond
      have : (acc ++ [w]).length ≤ 2 := by omega
      exact ih (acc ++ [w]) this g hg

/-- C8 (amended): the loop flushes exactly on the stated policy — each
flushed chunk holds between 1 and 3 words, and a chunk of fewer than 3
words ends in a word containing '.', '!', '?' or a newline.  The
non-empty remainder is flushed as a final chunk only by the
react_agent_search_streaming emitter; the stream_chat_response agent
emitter ends without flushing it. -/
theorem C8_flush_policy (t : String) :
    streamAgentChunks t = ((emitAuxW (pySplitSpace t) []).1).map renderW ∧
    (∀ g ∈ (emitAuxW (pySplitSpace t) []).1,
      g ≠ [] ∧ g.length ≤ 3 ∧
        (g.length < 3 → ∃ w, g.getLast? = some w ∧ hasTerminalChar w = true)) ∧
    reactChunkList t
      = streamAgentChunks t ++ (if emitLeftover t = "" then [] else [emitLeftover t]) := by
  have hrel := emitAux_eq_emitAuxW (pySplitSpace t) []
  rw [show (renderW [] : String) = "" from rfl, show ([] : List String).length = 0 from rfl]
    at hrel
  refine ⟨?_, emitAuxW_policy (pySplitSpace t) [] (by simp), ?_⟩
  · unfold streamAgentChunks
    rw [hrel]
  · unfold reactChunkList streamAgentChunks emitLeftover
    by_cases h : (emitAux (pySplitSpace t) "" 0).2 = ""
    · simp [h]
    · simp [h]

/-- C8 counterexample: the two-word text "a b" leaves the non-empty
buffer "a b " unflushed, and the stream_chat_response agent emitter
produces no chunk at all instead of flushing it as a final chunk. -/
theorem C8_counterexample :
    emitLeftover "a b" = "a b " ∧ streamAgentChunks "a b" = [] := by
  decide

/-- Witness for C8_flush_policy at a concrete text: a three-word group is
flushed by the word-count trigger and a one-word group by the terminal
character, and the react emitter appends the remainder chunk. -/
theorem C8_flush_policy_witness :
    reactChunkList "Nice day. Glad to hear it friend"
      = streamAgentChunks "Nice day. Glad to hear it friend"
        ++ (if emitLeftover "Nice day. Glad to hear it friend" = ""
            then []
            else [emitLeftover "Nice day. Glad to hear it friend"]) ∧
    (["Nice", "day."] : List String).length < 3 := by
  exact ⟨(C8_flush_policy "Nice day. Glad to hear it friend").2.2, by decide⟩

/- ## Normalizer, resolution and error conversion -/

/-- C3, evaluation at the failing input: a whitespace-only user message
passes Python's truthiness test ("if msg.content" is true for " "), is
stripped to the empty string, and reaches the provider with content of
length 0 — the role-appropriate default "Hello" is not substituted. -/
theorem C3_whitespace_content_bug :
    normalizeMessages [{ role := "user", content := " " }] = [LCMessage.human ""] ∧
    (LCMessage.content (LCMessage.human "")).length = 0 := by
  decide

/-- C5: resolving a model name absent from a non-empty registry returns
the first-registered name, a registered handle, and the non-streaming and
streaming chat paths use the same fallback. -/
theorem C5_fallback_first_registered (reg : List String) (m first : String)
    (rest : List String) (hreg : reg = first :: rest) (hm : m ∉ reg) :
    resolveChatModel reg m = .use first ∧
    resolveStreamModel reg m = .use first ∧
    first ∈ reg := by
  subst hreg
  refine ⟨?_, ?_, List.mem_cons_self _ _⟩
  · unfold resolveChatModel
    rw [if_neg hm]
  · unfold resolveStreamModel
    rw [if_neg hm]

/-- Witness for C5 at a concrete registry and unknown model name. -/
theorem C5_fallback_witness :
    resolveChatModel ["gpt-4o-mini", "gpt-4o"] "mystery-model" = .use "gpt-4o-mini" ∧
    resolveStreamModel ["gpt-4o-mini", "gpt-4o"] "mystery-model" = .use "gpt-4o-mini" ∧
    "gpt-4o-mini" ∈ ["gpt-4o-mini", "gpt-4o"] :=
  C5_fallback_first_registered _ _ _ _ rfl (by decide)

/-- C4 (amended): only the synchronous react-search endpoint converts a
provider overload (anthropic.InternalServerError) into the distinguished
busy message, its other exceptions becoming the generic research-agent
error message embedding the exception text.  The chat endpoint's
use_agent path and the react-search-streaming endpoint have only generic
except-Exception handlers, so each converts every exception — overloads
included — into its generic error message embedding the exception text
(a reply string and a terminal result event, respectively); in all cases
a well-formed reply or terminated event stream is produced. -/
theorem C4_overload_conversion (e : String) (reg : List String) (m : String)
    (d : DirectOutcome) (tid : String) :
    reactSearchReply (.overload e) = busyMsg ∧
    reactSearchReply (.failure e)
      = "I encountered an error with the research agent: " ++ e ∧
    chatReplyContent reg m true (.overload e) d
      = "I encountered an error with the AI agent: " ++ e ∧
    chatReplyContent reg m true (.failure e) d
      = "I encountered an error with the AI agent: " ++ e ∧
    reactStreamEvents tid (.overload e)
      = [statusEv "Starting research...", statusEv "Researching...",
         resultEv ("I encountered an error: " ++ e) tid] ∧
    reactStreamEvents tid (.failure e)
      = [statusEv "Starting research...", statusEv "Researching...",
         resultEv ("I encountered an error: " ++ e) tid] :=
  ⟨rfl, rfl, rfl, rfl, rfl, rfl⟩

/-- C4 counterexample: an overload raised under the chat endpoint's
use_agent path, or under the react-search-streaming endpoint, is
converted to that path's generic error message, not to the distinguished
busy message the claim requires for every agent invocation. -/
theorem C4_counterexample :
    chatReplyContent ["gpt-4o-mini"] "gpt-4o-mini" true
        (.overload "Overloaded") (.ok "hi")
      = "I encountered an error with the AI agent: Overloaded" ∧
    chatReplyContent ["gpt-4o-mini"] "gpt-4o-mini" true
        (.overload "Overloaded") (.ok "hi") ≠ busyMsg ∧
    reactStreamEvents "t4" (.overload "Overloaded")
      = [statusEv "Starting research...", statusEv "Researching...",
         resultEv "I encountered an error: Overloaded" "t4"] ∧
    ("I encountered an error: Overloaded" : String) ≠ busyMsg :=
  ⟨rfl, by decide, rfl, by decide⟩

/-- With an empty registry the streaming generator emits exactly the
initial status and the advisory result, and starts no agent task. -/
theorem streamChatRun_empty_registry (r : StreamReq) (h : r.registry = []) :
    streamChatRun r = ([statusEv "Processing...", resultEv noKeysMsg r.threadId], none) := by
  have hres : resolveStreamModel r.registry r.model = .noKeys := by
    rw [h]
    simp [resolveStreamModel]
  unfold streamChatRun
  rw [hres]

/-- C6 (amended): with an empty registry, the direct (use_agent=false)
non-streaming path replies with the missing-configuration advisory, and
every streaming request — use_agent=true included — terminates with the
advisory result event; both are delivered as ordinary replies, never as
an HTTP failure.  A non-streaming use_agent=true request, however,
bypasses the registry check and returns whatever the agent path
produces. -/
theorem C6_empty_registry (m : String) (a : AgentOutcome) (d : DirectOutcome)
    (r : StreamReq) (hr : r.registry = []) :
    chatReplyContent [] m false a d = noKeysMsg ∧
    streamChatEvents r = [statusEv "Processing...", resultEv noKeysMsg r.threadId] := by
  constructor
  · simp [chatReplyContent, resolveChatModel]
  · unfold streamChatEvents
    rw [streamChatRun_empty_registry r hr]

/-- Witness for C6 at concrete inputs, with use_agent=true on the
streaming side. -/
theorem C6_empty_registry_witness :
    chatReplyContent [] "gpt-4o-mini" false (.ok "x") (.ok "y") = noKeysMsg ∧
    streamChatEvents ⟨[], "gpt-4o-mini", "t0", true, .ok "z", 2, .noAstream⟩
      = [statusEv "Processing...", resultEv noKeysMsg "t0"] :=
  C6_empty_registry "gpt-4o-mini" _ _ _ rfl

/-- C6 counterexample: a non-streaming request with use_agent=true and an
empty registry never reaches the registry check; the reply is the agent
path's generic error (or success) text, which does not reference the
missing configuration. -/
theorem C6_counterexample :
    chatReplyContent [] "gpt-4o-mini" true (.failure "boom") (.ok "hi")
      = "I encountered an error with the AI agent: boom" ∧
    chatReplyContent [] "gpt-4o-mini" true (.failure "boom") (.ok "hi") ≠ noKeysMsg := by
  decide

/- ## Source citation formatting -/

theorem str_length_data (s : String) : s.length = s.data.length := by
  cases s
  rfl

/-- Collected sources always carry a truthy url and title: the
collection loop only appends entries whose url and title pass the
truthiness test. -/
theorem mem_toolCallSources {s : SearchItem} {tc : ToolCall}
    (hs : s ∈ toolCallSources tc) : s.url ≠ "" ∧ s.title ≠ "" := by
  unfold toolCallSources at hs
  split at hs
  · split at hs
    · rcases List.mem_filterMap.mp hs with ⟨it, _, heq⟩
      by_cases hcond : it.url ≠ "" ∧ it.title ≠ ""
      · rw [if_pos hcond] at heq
        cases heq
        exact hcond
      · rw [if_neg hcond] at heq
        cases heq
    · simp at hs
  · simp at hs

theorem mem_collectSources {s : SearchItem} {msgs : List AgentMsg}
    (hs : s ∈ collectSources msgs) : s.url ≠ "" ∧ s.title ≠ "" := by
  unfold collectSources at hs
  rcases List.mem_flatten.mp hs with ⟨l, hl, hsl⟩
  rcases List.mem_map.mp hl with ⟨m, _, rfl⟩
  unfold msgSources at hsl
  rcases List.mem_flatten.mp hsl with ⟨l', hl', hsl'⟩
  rcases List.mem_map.mp hl' with ⟨tc, _, rfl⟩
  exact mem_toolCallSources hsl'

/-- On sources with truthy urls the url filter of format_source_urls is
the identity: every collected source is rendered. -/
theorem filterMap_renderSource (l : List SearchItem) (h : ∀ s ∈ l, s.url ≠ "") :
    l.filterMap renderSource
      = l.map (fun s => "[" ++ truncTitle s.title ++ "](" ++ s.url ++ ")") := by
  induction l with
  | nil => rfl
  | cons x xs ih =>
    rw [List.filterMap_cons, List.map_cons]
    have hx : renderSource x
        = some ("[" ++ truncTitle x.title ++ "](" ++ x.url ++ ")") := by
      unfold renderSource
      rw [if_pos (h x (List.mem_cons_self _ _))]
    rw [hx, ih (fun s hs => h s (List.mem_cons_of_mem _ hs))]

/-- C7: whenever any {url, title} entries are collected from "search"
tool invocation records, the reply emitted by the react-search endpoints
is the extracted content followed by a Sources section that renders every
collected entry, in collection order and without deduplication; a
stripped title longer than 60 code points is rendered as its first 57
code points plus "...", i.e. truncated to exactly 60. -/
theorem C7_source_citations (msgs : List AgentMsg) (last : AgentMsg)
    (hlast : msgs.getLast? = some last) (h : collectSources msgs ≠ []) :
    reactReply msgs
      = last.content ++ "\n\n**Sources:**\n"
          ++ String.intercalate "\n"
               ((collectSources msgs).map
                 (fun s => "[" ++ truncTitle s.title ++ "](" ++ s.url ++ ")")) ∧
    ∀ s ∈ collectSources msgs,
      60 < (pyStrip s.title).length →
        truncTitle s.title = pyTake 57 (pyStrip s.title) ++ "..." ∧
        (truncTitle s.title).length = 60 := by
  constructor
  · have hsto : msgs.filter (fun m => !m.tool_calls.isEmpty) ≠ [] := by
      intro hempty
      apply h
      unfold collectSources
      rw [hempty]
      rfl
    simp only [reactReply, hlast]
    rw [if_neg (by simp only [List.isEmpty_iff]; exact hsto)]
    rw [if_neg (by simp only [List.isEmpty_iff]; exact h)]
    unfold format_source_urls
    have hfold : (List.map msgSources
        (List.filter (fun m => !m.tool_calls.isEmpty) msgs)).flatten
        = collectSources msgs := rfl
    rw [hfold]
    rw [if_neg (by simp only [List.isEmpty_iff]; exact h)]
    rw [filterMap_renderSource _ (fun s hs => (mem_collectSources hs).1)]
    have hne : (collectSources msgs).map
        (fun s => "[" ++ truncTitle s.title ++ "](" ++ s.url ++ ")") ≠ [] := by
      simpa using h
    rw [if_neg (by simp only [List.isEmpty_iff]; exact hne), String.append_assoc]
  · intro s _ hlong
    unfold truncTitle
    rw [if_pos hlong]
    refine ⟨rfl, ?_⟩
    rw [str_length_data, String.data_append]
    unfold pyTake
    rw [List.length_append, List.length_take]
    have h1 : (pyStrip s.title).data.length = (pyStrip s.title).length := by
      rw [str_length_data]
    have h2 : ("..." : String).data.length = 3 := rfl
    rw [h2, Nat.min_eq_left (by omega)]

/-- Witness for C7: scenario 4 — an agent result with one search record
carrying two {url, title} entries yields a reply ending in a Sources
section listing both links in order. -/
theorem C7_source_citations_witness :
    sampleSearchMsgs.getLast? = some ⟨"Answer", []⟩ ∧
    collectSources sampleSearchMsgs ≠ [] ∧
    reactReply sampleSearchMsgs
      = "Answer" ++ "\n\n**Sources:**\n"
          ++ String.intercalate "\n"
               ((collectSources sampleSearchMsgs).map
                 (fun s => "[" ++ truncTitle s.title ++ "](" ++ s.url ++ ")")) :=
  ⟨rfl, by decide,
   (C7_source_citations sampleSearchMsgs ⟨"Answer", []⟩ rfl (by decide)).1⟩

/- ## Event shapes of the streaming generators -/

theorem statusEv_typeName (s : String) : (statusEv s).typeName = some "status" := rfl

theorem chunkEv_typeName (c tid : String) : (chunkEv c tid).typeName = some "chunk" := rfl

theorem resultEv_typeName (c tid : String) : (resultEv c tid).typeName = some "result" := rfl

theorem doneEv_typeName (tid : String) : (doneEv tid).typeName = some "done" := rfl

theorem statusEv_nonterminal (s : String) :
    ¬ isTerminal (statusEv s) ∧
    ((statusEv s).typeName = some "status" ∨ (statusEv s).typeName = some "chunk") := by
  refine ⟨?_, Or.inl rfl⟩
  rw [isTerminal, statusEv_typeName]
  decide

theorem chunkEv_nonterminal (c tid : String) :
    ¬ isTerminal (chunkEv c tid) ∧
    ((chunkEv c tid).typeName = some "status" ∨ (chunkEv c tid).typeName = some "chunk") := by
  refine ⟨?_, Or.inr rfl⟩
  rw [isTerminal, chunkEv_typeName]
  decide

theorem resultEv_terminal (c tid : String) : isTerminal (resultEv c tid) :=
  Or.inl (resultEv_typeName c tid)

theorem doneEv_terminal (tid : String) : isTerminal (doneEv tid) :=
  Or.inr (doneEv_typeName tid)

theorem mem_agentProgress {e : J} {k : Nat} (he : e ∈ agentProgress k) :
    ∃ s, e = statusEv s := by
  rcases List.mem_map.mp he with ⟨i, _, rfl⟩
  exact ⟨_, rfl⟩

/-- Every event of the stream_chat_response generator is one of the four
dict shapes of the source, with the request's thread id. -/
theorem mem_streamChatEvents_cases (r : StreamReq) (e : J)
    (he : e ∈ streamChatEvents r) :
    (∃ s, e = statusEv s) ∨ (∃ c, e = chunkEv c r.threadId) ∨
    (∃ c, e = resultEv c r.threadId) ∨ e = doneEv r.threadId := by
  unfold streamChatEvents streamChatRun at he
  cases hres : resolveStreamModel r.registry r.model with
  | noKeys =>
    simp only [hres, List.mem_cons, List.not_mem_nil, or_false] at he
    rcases he with rfl | rfl
    · exact Or.inl ⟨_, rfl⟩
    · exact Or.inr (Or.inr (Or.inl ⟨_, rfl⟩))
  | use model =>
    simp only [hres] at he
    by_cases hua : r.useAgent = true
    · rw [if_pos hua] at he
      cases hout : r.agentOut with
      | ok content =>
        simp only [hout, List.mem_cons, List.mem_append, List.mem_map,
          List.not_mem_nil, or_false, or_assoc] at he
        rcases he with rfl | rfl | hpre | ⟨c, _, rfl⟩ | rfl
        · exact Or.inl ⟨_, rfl⟩
        · exact Or.inl ⟨_, rfl⟩
        · exact Or.inl (mem_agentProgress hpre)
        · exact Or.inr (Or.inl ⟨_, rfl⟩)
        · exact Or.inr (Or.inr (Or.inl ⟨_, rfl⟩))
      | overload err =>
        simp only [hout, List.mem_cons, List.mem_append,
          List.not_mem_nil, or_false, or_assoc] at he
        rcases he with rfl | rfl | hpre | rfl
        · exact Or.inl ⟨_, rfl⟩
        · exact Or.inl ⟨_, rfl⟩
        · exact Or.inl (mem_agentProgress hpre)
        · exact Or.inr (Or.inr (Or.inl ⟨_, rfl⟩))
      | failure err =>
        simp only [hout, List.mem_cons, List.mem_append,
          List.not_mem_nil, or_false, or_assoc] at he
        rcases he with rfl | rfl | hpre | rfl
        · exact Or.inl ⟨_, rfl⟩
        · exact Or.inl ⟨_, rfl⟩
        · exact Or.inl (mem_agentProgress hpre)
        · exact Or.inr (Or.inr (Or.inl ⟨_, rfl⟩))
    · rw [if_neg hua] at he
      cases hds : r.directStream with
      | noAstream =>
        simp only [hds, List.mem_cons, List.not_mem_nil, or_false] at he
        subst he
        exact Or.inl ⟨_, rfl⟩
      | ok cs =>
        simp only [hds, List.mem_cons, List.mem_append, List.mem_map,
          List.not_mem_nil, or_false, or_assoc] at he
        rcases he with rfl | ⟨c, _, rfl⟩ | rfl
        · exact Or.inl ⟨_, rfl⟩
        · exact Or.inr (Or.inl ⟨_, rfl⟩)
        · exact Or.inr (Or.inr (Or.inr rfl))
      | err emitted msg =>
        simp only [hds, List.mem_cons, List.mem_append, List.mem_map,
          List.not_mem_nil, or_false, or_assoc] at he
        rcases he with rfl | ⟨c, _, rfl⟩ | rfl
        · exact Or.inl ⟨_, rfl⟩
        · exact Or.inr (Or.inl ⟨_, rfl⟩)
        · exact Or.inr (Or.inr (Or.inl ⟨_, rfl⟩))

/-- Every event of the react streaming generator is a status, chunk or
result dict with the request's thread id. -/
theorem mem_reactStreamEvents_cases (tid : String) (out : ReactOutcome) (e : J)
    (he : e ∈ reactStreamEvents tid out) :
    (∃ s, e = statusEv s) ∨ (∃ c, e = chunkEv c tid) ∨ (∃ c, e = resultEv c tid) := by
  cases out with
  | ok msgs =>
    unfold reactStreamEvents at he
    simp only [List.mem_cons, List.mem_append, List.mem_map,
      List.not_mem_nil, or_false, or_assoc] at he
    rcases he with rfl | rfl | ⟨c, _, rfl⟩ | rfl
    · exact Or.inl ⟨_, rfl⟩
    · exact Or.inl ⟨_, rfl⟩
    · exact Or.inr (Or.inl ⟨_, rfl⟩)
    · exact Or.inr (Or.inr ⟨_, rfl⟩)
  | overload err =>
    simp only [reactStreamEvents, List.mem_cons, List.not_mem_nil, or_false] at he
    rcases he with rfl | rfl | rfl
    · exact Or.inl ⟨_, rfl⟩
    · exact Or.inl ⟨_, rfl⟩
    · exact Or.inr (Or.inr ⟨_, rfl⟩)
  | failure err =>
    simp only [reactStreamEvents, List.mem_cons, List.not_mem_nil, or_false] at he
    rcases he with rfl | rfl | rfl
    · exact Or.inl ⟨_, rfl⟩
    · exact Or.inl ⟨_, rfl⟩
    · exact Or.inr (Or.inr ⟨_, rfl⟩)

/- ## C9: wire-event fields -/

theorem eventWellFormed_statusEv (s : String) : eventWellFormed (statusEv s) :=
  ⟨rfl, fun _ => rfl, fun hne => absurd rfl hne⟩

theorem eventWellFormed_chunkEv (c tid : String) : eventWellFormed (chunkEv c tid) := by
  refine ⟨rfl, ?_, fun _ => rfl⟩
  intro hst
  rw [chunkEv_typeName] at hst
  exact absurd hst (by decide)

theorem eventWellFormed_resultEv (c tid : String) : eventWellFormed (resultEv c tid) := by
  refine ⟨rfl, ?_, fun _ => rfl⟩
  intro hst
  rw [resultEv_typeName] at hst
  exact absurd hst (by decide)

theorem eventWellFormed_doneEv (tid : String) : eventWellFormed (doneEv tid) := by
  refine ⟨rfl, ?_, fun _ => rfl⟩
  intro hst
  rw [doneEv_typeName] at hst
  exact absurd hst (by decide)

/-- C9 (amended): every wire event of both streaming generators is one
JSON object per line carrying a type field and its variant payload, and
chunk, result and done events carry a thread_id field — but status events
carry no thread_id. -/
theorem C9_event_fields (r : StreamReq) (tid : String) (out : ReactOutcome) :
    (∀ e ∈ streamChatEvents r, eventWellFormed e) ∧
    (∀ e ∈ reactStreamEvents tid out, eventWellFormed e) := by
  constructor
  · intro e he
    rcases mem_streamChatEvents_cases r e he with ⟨s, rfl⟩ | ⟨c, rfl⟩ | ⟨c, rfl⟩ | rfl
    · exact eventWellFormed_statusEv s
    · exact eventWellFormed_chunkEv c r.threadId
    · exact eventWellFormed_resultEv c r.threadId
    · exact eventWellFormed_doneEv r.threadId
  · intro e he
    rcases mem_reactStreamEvents_cases tid out e he with ⟨s, rfl⟩ | ⟨c, rfl⟩ | ⟨c, rfl⟩
    · exact eventWellFormed_statusEv s
    · exact eventWellFormed_chunkEv c tid
    · exact eventWellFormed_resultEv c tid

/-- C9 counterexample: the very first event of every stream_chat_response
stream is the status object {"type": "status", "status": "Processing..."},
which carries no thread_id field, contradicting the claim that every
variant carries one. -/
theorem C9_counterexample :
    (statusEv "Processing...")
        ∈ streamChatEvents
            ⟨["gpt-4o-mini"], "gpt-4o-mini", "t1", false, .ok "", 0, .ok ["Hello"]⟩ ∧
    (statusEv "Processing...").hasField "thread_id" = false := by
  constructor
  · have hev : streamChatEvents
        ⟨["gpt-4o-mini"], "gpt-4o-mini", "t1", false, .ok "", 0, .ok ["Hello"]⟩
        = [statusEv "Processing...", chunkEv "Hello" "t1", doneEv "t1"] := rfl
    rw [hev]
    exact List.mem_cons_self _ _
  · rfl

/-- Witness for C9 at a concrete event of a concrete stream. -/
theorem C9_event_fields_witness : eventWellFormed (doneEv "t1") := by
  refine (C9_event_fields
      ⟨["gpt-4o-mini"], "gpt-4o-mini", "t1", false, .ok "", 0, .ok ["Hello"]⟩
      "t1" (.failure "x")).1 (doneEv "t1") ?_
  have hev : streamChatEvents
      ⟨["gpt-4o-mini"], "gpt-4o-mini", "t1", false, .ok "", 0, .ok ["Hello"]⟩
      = [statusEv "Processing...", chunkEv "Hello" "t1", doneEv "t1"] := rfl
  rw [hev]
  exact List.mem_cons_of_mem _ (List.mem_cons_of_mem _ (List.mem_cons_self _ _))

/- ## C2: exactly one terminal event, last -/

/-- C2 (amended): whenever the request takes the agent branch, hits the
empty-registry advisory, or the resolved direct handle exposes astream
(completing or raising), the emitted sequence is zero-or-more
status/chunk events followed by exactly one terminal event (result or
done), with nothing after it.  When use_agent=false and the handle has no
astream attribute, the generator ends after the initial status event with
no terminal event at all. -/
theorem C2_terminal_event (r : StreamReq) (tid : String) (out : ReactOutcome)
    (h : r.useAgent = true ∨ r.registry = [] ∨ r.directStream ≠ DirectStream.noAstream) :
    (∃ es e, streamChatEvents r = es ++ [e] ∧ isTerminal e ∧
      ∀ x ∈ es, ¬ isTerminal x ∧
        (x.typeName = some "status" ∨ x.typeName = some "chunk")) ∧
    (∃ es e, reactStreamEvents tid out = es ++ [e] ∧ isTerminal e ∧
      ∀ x ∈ es, ¬ isTerminal x ∧
        (x.typeName = some "status" ∨ x.typeName = some "chunk")) := by
  constructor
  case right =>
    have hst2 : ∀ x ∈ [statusEv "Starting research...", statusEv "Researching..."],
        ¬ isTerminal x ∧ (x.typeName = some "status" ∨ x.typeName = some "chunk") := by
      intro x hx
      rcases List.mem_cons.mp hx with rfl | hx
      · exact statusEv_nonterminal _
      rcases List.mem_cons.mp hx with rfl | hx
      · exact statusEv_nonterminal _
      · simp at hx
    cases out with
    | ok msgs =>
      refine ⟨statusEv "Starting research..." :: statusEv "Researching..."
          :: (reactChunkList (reactReply msgs)).map (fun c => chunkEv c tid),
        resultEv (reactReply msgs) tid, rfl, resultEv_terminal _ _, ?_⟩
      intro x hx
      rcases List.mem_cons.mp hx with rfl | hx
      · exact statusEv_nonterminal _
      rcases List.mem_cons.mp hx with rfl | hx
      · exact statusEv_nonterminal _
      rcases List.mem_map.mp hx with ⟨c, _, rfl⟩
      exact chunkEv_nonterminal c tid
    | overload err =>
      exact ⟨[statusEv "Starting research...", statusEv "Researching..."],
        resultEv ("I encountered an error: " ++ err) tid, rfl,
        resultEv_terminal _ _, hst2⟩
    | failure err =>
      exact ⟨[statusEv "Starting research...", statusEv "Researching..."],
        resultEv ("I encountered an error: " ++ err) tid, rfl,
        resultEv_terminal _ _, hst2⟩
  case left =>
  unfold streamChatEvents streamChatRun
  cases hres : resolveStreamModel r.registry r.model with
  | noKeys =>
    refine ⟨[statusEv "Processing..."], resultEv noKeysMsg r.threadId, by simp, ?_, ?_⟩
    · exact resultEv_terminal _ _
    · intro x hx
      rcases List.mem_cons.mp hx with rfl | hx
      · exact statusEv_nonterminal _
      · simp at hx
  | use model =>
    simp only []
    by_cases hua : r.useAgent = true
    · rw [if_pos hua]
      have hpre : ∀ x ∈ statusEv "Processing..." :: statusEv "Running agent..."
          :: agentProgress r.progressTicks,
          ¬ isTerminal x ∧ (x.typeName = some "status" ∨ x.typeName = some "chunk") := by
        intro x hx
        rcases List.mem_cons.mp hx with rfl | hx
        · exact statusEv_nonterminal _
        rcases List.mem_cons.mp hx with rfl | hx
        · exact statusEv_nonterminal _
        rcases mem_agentProgress hx with ⟨s, rfl⟩
        exact statusEv_nonterminal s
      cases hout : r.agentOut with
      | ok content =>
        refine ⟨(statusEv "Processing..." :: statusEv "Running agent..."
            :: agentProgress r.progressTicks)
              ++ (streamAgentChunks content).map (fun c => chunkEv c r.threadId),
          resultEv content r.threadId, by simp, resultEv_terminal _ _, ?_⟩
        intro x hx
        rcases List.mem_append.mp hx with hx | hx
        · exact hpre x hx
        · rcases List.mem_map.mp hx with ⟨c, _, rfl⟩
          exact chunkEv_nonterminal c r.threadId
      | overload err =>
        exact ⟨_, _, rfl, resultEv_terminal _ _, hpre⟩
      | failure err =>
        exact ⟨_, _, rfl, resultEv_terminal _ _, hpre⟩
    · rw [if_neg hua]
      cases hds : r.directStream with
      | noAstream =>
        rcases h with h | h | h
        · exact absurd h hua
        · rw [h] at hres
          simp [resolveStreamModel] at hres
        · exact absurd hds h
      | ok cs =>
        refine ⟨statusEv "Processing..."
            :: (cs.filter (fun c => c ≠ "")).map (fun c => chunkEv c r.threadId),
          doneEv r.threadId, by simp, doneEv_terminal _, ?_⟩
        intro x hx
        rcases List.mem_cons.mp hx with rfl | hx
        · exact statusEv_nonterminal _
        · rcases List.mem_map.mp hx with ⟨c, _, rfl⟩
          exact chunkEv_nonterminal c r.threadId
      | err emitted msg =>
        refine ⟨statusEv "Processing..."
            :: (emitted.filter (fun c => c ≠ "")).map (fun c => chunkEv c r.threadId),
          resultEv ("I encountered an error with the " ++ model ++ " model: " ++ msg)
            r.threadId, by simp, resultEv_terminal _ _, ?_⟩
        intro x hx
        rcases List.mem_cons.mp hx with rfl | hx
        · exact statusEv_nonterminal _
        · rcases List.mem_map.mp hx with ⟨c, _, rfl⟩
          exact chunkEv_nonterminal c r.threadId

/-- C2 counterexample: with use_agent=false and a resolved model client
that has no astream attribute, the stream is the single status event —
no terminal event is ever emitted, and in particular the last event is
not terminal. -/
theorem C2_counterexample :
    streamChatEvents ⟨["gpt-4o-mini"], "gpt-4o-mini", "t1", false, .ok "", 0, .noAstream⟩
      = [statusEv "Processing..."] ∧
    ¬ isTerminal (statusEv "Processing...") :=
  ⟨rfl, by decide⟩

/-- Witness for C2 on a concrete directly-streamed request and a
concrete react-search stream. -/
theorem C2_terminal_event_witness :
    (∃ es e,
      streamChatEvents ⟨["gpt-4o-mini"], "gpt-4o-mini", "t1", false, .ok "", 0, .ok ["Hi"]⟩
        = es ++ [e] ∧ isTerminal e ∧
      ∀ x ∈ es, ¬ isTerminal x ∧
        (x.typeName = some "status" ∨ x.typeName = some "chunk")) ∧
    (∃ es e, reactStreamEvents "t9" (.failure "oops") = es ++ [e] ∧ isTerminal e ∧
      ∀ x ∈ es, ¬ isTerminal x ∧
        (x.typeName = some "status" ∨ x.typeName = some "chunk")) :=
  C2_terminal_event _ "t9" (.failure "oops") (Or.inr (Or.inr (by decide)))

/- ## C10: resolution precedes the agent/direct branch -/

/-- C10: in the streaming path the registry is consulted before the
agent/direct branch: with an empty registry the stream ends with the
missing-configuration result and no agent task is ever created, and with
an unregistered model name and a non-empty registry the agent task is
created with the first-registered model name substituted for the
requested one. -/
theorem C10_resolution_before_branch (r : StreamReq) :
    (r.registry = [] →
      (streamChatRun r).2 = none ∧
      streamChatEvents r = [statusEv "Processing...", resultEv noKeysMsg r.threadId]) ∧
    (∀ first rest, r.registry = first :: rest → r.useAgent = true →
      r.model ∉ r.registry → (streamChatRun r).2 = some first) := by
  constructor
  · intro h
    constructor
    · rw [streamChatRun_empty_registry r h]
    · unfold streamChatEvents
      rw [streamChatRun_empty_registry r h]
  · intro first rest hreg hua hnm
    have hres : resolveStreamModel r.registry r.model = .use first := by
      unfold resolveStreamModel
      rw [hreg] at hnm ⊢
      rw [if_neg hnm]
    unfold streamChatRun
    simp only [hres]
    rw [if_pos hua]
    cases r.agentOut <;> rfl

/-- Witness for C10 at concrete requests: an empty-registry streaming
request with use_agent=true never starts the agent, and an unregistered
model name hands the agent the first-registered name. -/
theorem C10_resolution_witness :
    ((streamChatRun ⟨[], "gpt-4o-mini", "t2", true, .ok "x", 1, .noAstream⟩).2 = none ∧
      streamChatEvents ⟨[], "gpt-4o-mini", "t2", true, .ok "x", 1, .noAstream⟩
        = [statusEv "Processing...", resultEv noKeysMsg "t2"]) ∧
    (streamChatRun
        ⟨["gpt-4o-mini", "gpt-4o"], "mystery-model", "t3", true, .ok "x", 1, .noAstream⟩).2
      = some "gpt-4o-mini" :=
  ⟨(C10_resolution_before_branch _).1 rfl,
   (C10_resolution_before_branch _).2 "gpt-4o-mini" ["gpt-4o"] rfl rfl (by decide)⟩

end Vaani
